import Mathlib

/-!
Shallow embedding of `src/visualize_amateru.py` (the star-map pipeline):
catalog selection (`get_stars_near_amateru`), pair distances
(`calculate_distances`), orthographic projection (`project_to_2d`),
overlap resolution (`resolve_overlaps`) and the connection-drawing part of
`render_map`.  Real-number arithmetic is modelled exactly over `ℝ`.
-/

namespace SolarViewer

/-- A value in a fetched SQL row: integer, string, real, or SQL NULL. -/
inductive Field where
  | i : ℤ → Field
  | s : String → Field
  | r : ℝ → Field
  | null : Field

/-- A fetched row is a list of field values (Python tuple from the cursor). -/
abbrev Row := List Field

/-- A star record as stored in the `stars` table.  The physical attributes
may be SQL NULL (`none`). -/
structure Star where
  id : ℤ
  name : String
  x : ℝ
  y : ℝ
  z : ℝ
  spectral : String
  radius_solar : Option ℝ
  mass_solar : Option ℝ
  luminosity_solar : Option ℝ

/-- A possibly-NULL real column as a row field. -/
def optField : Option ℝ → Field
  | none => Field.null
  | some v => Field.r v

/-- The 6-column row produced by the reference-star query
`SELECT id, name, x, y, z, spectral` (lines 30-44). -/
def row6 (st : Star) : Row :=
  [Field.i st.id, Field.s st.name, Field.r st.x, Field.r st.y, Field.r st.z,
   Field.s st.spectral]

/-- The 9-column row produced by the all-stars query
`SELECT id, name, x, y, z, spectral, radius_solar, mass_solar,
luminosity_solar` (lines 60-64). -/
def row9 (st : Star) : Row :=
  [Field.i st.id, Field.s st.name, Field.r st.x, Field.r st.y, Field.r st.z,
   Field.s st.spectral, optField st.radius_solar, optField st.mass_solar,
   optField st.luminosity_solar]

/-- Configuration constant `REGION_RADIUS_LY = 20.0` (line 22). -/
def REGION_RADIUS_LY : ℝ := 20

/-- Configuration constant `CLOSE_DISTANCE_LY = 10.0` (line 21). -/
def CLOSE_DISTANCE_LY : ℝ := 10

/-- Configuration constant `OUTPUT_WIDTH = 5000` (line 13). -/
def OUTPUT_WIDTH : ℝ := 5000

/-- Configuration constant `OUTPUT_HEIGHT = 5000` (line 14). -/
def OUTPUT_HEIGHT : ℝ := 5000

/-- ASCII case folding of one character, as SQLite's `LOWER` performs. -/
def sqlLowerChar (c : Char) : Char :=
  if 65 ≤ c.toNat ∧ c.toNat ≤ 90 then Char.ofNat (c.toNat + 32) else c

/-- SQLite's `LOWER` on a string (ASCII case folding). -/
def sqlLower (s : String) : String := String.mk (s.data.map sqlLowerChar)

/-- The reference-star lookup: exact name `'Amateru'` first (line 30),
then the case-insensitive fallback `LOWER(name) = 'amateru'` (line 38). -/
def lookupAmateru (catalog : List Star) : Option Star :=
  match catalog.find? (fun s => s.name == "Amateru") with
  | some st => some st
  | none => catalog.find? (fun st => sqlLower st.name == "amateru")

/-- Insert a name into an already-sorted list of names (model of SQL
`ORDER BY name`). -/
def insertByName (nm : String) : List String → List String
  | [] => [nm]
  | x :: xs => if nm ≤ x then nm :: x :: xs else x :: insertByName nm xs

/-- Sort a list of names (model of SQL `ORDER BY name`). -/
def sortNames : List String → List String
  | [] => []
  | x :: xs => insertByName x (sortNames xs)

/-- The diagnostic listing printed when the reference star is missing:
`SELECT name FROM stars ORDER BY name LIMIT 20` (line 49). -/
def sampleNames (catalog : List Star) : List String :=
  (sortNames (catalog.map Star.name)).take 20

/-- 3D Euclidean distance from the reference to a candidate star
(line 75: `sqrt((x - ax)**2 + (y - ay)**2 + (z - az)**2)`). -/
noncomputable def dist3 (ref st : Star) : ℝ :=
  Real.sqrt ((st.x - ref.x) ^ 2 + (st.y - ref.y) ^ 2 + (st.z - ref.z) ^ 2)

/-- The selection loop over the fetched catalog rows (lines 69-77):
skip a row whose id equals the reference id, keep a row whose distance
to the reference is at most `REGION_RADIUS_LY`. -/
noncomputable def nearbyLoop (ref : Star) : List Star → List Star
  | [] => []
  | st :: rest =>
    if st.id = ref.id then nearbyLoop ref rest
    else if dist3 ref st ≤ REGION_RADIUS_LY then st :: nearbyLoop ref rest
    else nearbyLoop ref rest

/-- `get_stars_near_amateru` (lines 24-89): looks up the reference star
(exact then case-insensitive), on failure surfaces the diagnostic sample
listing, on success returns the reference 5-tuple together with the
selected rows: the reference's 6-column row first, then the 9-column rows
of every other star within `REGION_RADIUS_LY`, in catalog order. -/
noncomputable def get_stars_near_amateru (catalog : List Star) :
    Except (List String) ((ℤ × String × ℝ × ℝ × ℝ) × List Row) :=
  match lookupAmateru catalog with
  | none => Except.error (sampleNames catalog)
  | some ref =>
    Except.ok ((ref.id, ref.name, ref.x, ref.y, ref.z),
      row6 ref :: (nearbyLoop ref catalog).map row9)

/-- A 2D pixel position. -/
abbrev Pos := ℝ × ℝ

/-- Read a row's x coordinate (`s[2]`). -/
def rowX (r : Row) : ℝ :=
  match r.getD 2 Field.null with
  | Field.r v => v
  | _ => 0

/-- Read a row's y coordinate (`s[3]`). -/
def rowY (r : Row) : ℝ :=
  match r.getD 3 Field.null with
  | Field.r v => v
  | _ => 0

/-- Read a row's z coordinate (`s[4]`). -/
def rowZ (r : Row) : ℝ :=
  match r.getD 4 Field.null with
  | Field.r v => v
  | _ => 0

/-- The ordered pair indices `(i, j)` with `i < j < n` produced by the
nested loops `for i in range(n): for j in range(i+1, n)`. -/
def pairsList (n : ℕ) : List (ℕ × ℕ) :=
  (List.range n).flatMap (fun i =>
    (List.range' (i + 1) (n - (i + 1))).map (fun j => (i, j)))

/-- `calculate_distances` (lines 91-107): the 3D distance between rows
`i < j` of the selected set, keyed by the index pair, in loop order. -/
noncomputable def calculate_distances (_amateru : ℤ × String × ℝ × ℝ × ℝ)
    (stars : List Row) : List ((ℕ × ℕ) × ℝ) :=
  (pairsList stars.length).map (fun ij =>
    let s1 := stars.getD ij.1 []
    let s2 := stars.getD ij.2 []
    (ij, Real.sqrt ((rowX s2 - rowX s1) ^ 2 + (rowY s2 - rowY s1) ^ 2 +
      (rowZ s2 - rowZ s1) ^ 2)))

/-- Minimum of a list of reals (Python `min` over a non-empty sequence). -/
def listMin : List ℝ → ℝ
  | [] => 0
  | x :: xs => xs.foldl min x

/-- Maximum of a list of reals (Python `max` over a non-empty sequence). -/
def listMax : List ℝ → ℝ
  | [] => 0
  | x :: xs => xs.foldl max x

/-- The 2D coordinates retained by the projection: `(s[2], s[3])` for each
selected row (line 118), i.e. x and y with z dropped. -/
def positions2d (stars : List Row) : List Pos :=
  stars.map (fun s => (rowX s, rowY s))

/-- `project_to_2d` (lines 109-154): bounding box of the retained 2D
coordinates, 10% padding on each span, uniform scale fitting the padded
spans into the canvas minus a 300-pixel margin (defaulting to 1.0 when a
padded span is not positive), then
`(coordinate - center) * scale + canvas/2` per axis. -/
noncomputable def project_to_2d (stars : List Row) : List Pos :=
  if stars.isEmpty then []
  else
    let positions_2d := positions2d stars
    let min_x := listMin (positions_2d.map Prod.fst)
    let max_x := listMax (positions_2d.map Prod.fst)
    let min_y := listMin (positions_2d.map Prod.snd)
    let max_y := listMax (positions_2d.map Prod.snd)
    let padding : ℝ := 0.1
    let range_x := (max_x - min_x) * (1 + padding)
    let range_y := (max_y - min_y) * (1 + padding)
    let center_x := (min_x + max_x) / 2
    let center_y := (min_y + max_y) / 2
    let margin : ℝ := 300
    let available_width := OUTPUT_WIDTH - 2 * margin
    let available_height := OUTPUT_HEIGHT - 2 * margin
    let scale :=
      if 0 < range_x ∧ 0 < range_y then
        min (available_width / range_x) (available_height / range_y)
      else 1
    positions_2d.map (fun pos =>
      ((pos.1 - center_x) * scale + OUTPUT_WIDTH / 2,
       (pos.2 - center_y) * scale + OUTPUT_HEIGHT / 2))

/-- `max_iterations = 50` (line 163). -/
def max_iterations : ℕ := 50

/-- One pair update of the declutter loop body (lines 169-184): if the
current distance of the pair is strictly between 0 and `min_distance`,
push both points apart along the normalized displacement by
`(min_distance - dist) / 2` each and record a move. -/
noncomputable def pairStep (min_distance : ℝ) (st : List Pos × Bool)
    (ij : ℕ × ℕ) : List Pos × Bool :=
  let ps := st.1
  let pi := ps.getD ij.1 (0, 0)
  let pj := ps.getD ij.2 (0, 0)
  let dx := pj.1 - pi.1
  let dy := pj.2 - pi.2
  let dist := Real.sqrt (dx ^ 2 + dy ^ 2)
  if dist < min_distance ∧ 0 < dist then
    let force := (min_distance - dist) / 2
    let norm_x := dx / dist
    let norm_y := dy / dist
    ((ps.set ij.1 (pi.1 - norm_x * force, pi.2 - norm_y * force)).set ij.2
       (pj.1 + norm_x * force, pj.2 + norm_y * force), true)
  else (ps, st.2)

/-- One full pass of the declutter loop over all pairs `i < j`
(lines 165-184), threading the in-place position updates and the
`moved` flag. -/
noncomputable def onePass (min_distance : ℝ) (ps : List Pos) : List Pos × Bool :=
  (pairsList ps.length).foldl (pairStep min_distance) (ps, false)

/-- The bounded iteration of `resolve_overlaps` (lines 164-187): run a
pass; if it moved something, keep iterating on the remaining budget,
otherwise break.  Returns the final positions together with the number of
passes that ran. -/
noncomputable def resolveLoop (min_distance : ℝ) : ℕ → List Pos → List Pos × ℕ
  | 0, ps => (ps, 0)
  | n + 1, ps =>
    let r := onePass min_distance ps
    if r.2 then
      let rest := resolveLoop min_distance n r.1
      (rest.1, rest.2 + 1)
    else (r.1, 1)

/-- `resolve_overlaps` (lines 156-189): up to `max_iterations` repulsion
passes with early exit once a pass makes no move. -/
noncomputable def resolve_overlaps (pixel_positions : List Pos)
    (min_distance : ℝ) : List Pos :=
  (resolveLoop min_distance max_iterations pixel_positions).1

/-- Division that faults (returns `none`) on a zero divisor, to make any
division-by-zero in the declutter loop observable. -/
noncomputable def safeDiv (a b : ℝ) : Option ℝ :=
  if b = 0 then none else some (a / b)

/-- `pairStep` with the normalization divisions checked: faults if a
division by zero would occur. -/
noncomputable def pairStepChecked (min_distance : ℝ) (st : List Pos × Bool)
    (ij : ℕ × ℕ) : Option (List Pos × Bool) :=
  let ps := st.1
  let pi := ps.getD ij.1 (0, 0)
  let pj := ps.getD ij.2 (0, 0)
  let dx := pj.1 - pi.1
  let dy := pj.2 - pi.2
  let dist := Real.sqrt (dx ^ 2 + dy ^ 2)
  if dist < min_distance ∧ 0 < dist then
    let force := (min_distance - dist) / 2
    match safeDiv dx dist, safeDiv dy dist with
    | some norm_x, some norm_y =>
      some ((ps.set ij.1 (pi.1 - norm_x * force, pi.2 - norm_y * force)).set ij.2
        (pj.1 + norm_x * force, pj.2 + norm_y * force), true)
    | _, _ => none
  else some (ps, st.2)

/-- One checked pass of the declutter loop. -/
noncomputable def onePassChecked (min_distance : ℝ) (ps : List Pos) :
    Option (List Pos × Bool) :=
  (pairsList ps.length).foldlM (pairStepChecked min_distance) (ps, false)

/-- The checked bounded iteration. -/
noncomputable def resolveLoopChecked (min_distance : ℝ) :
    ℕ → List Pos → Option (List Pos × ℕ)
  | 0, ps => some (ps, 0)
  | n + 1, ps => do
    let r ← onePassChecked min_distance ps
    if r.2 then
      let rest ← resolveLoopChecked min_distance n r.1
      pure (rest.1, rest.2 + 1)
    else pure (r.1, 1)

/-- `resolve_overlaps` with every normalization division checked for a
zero divisor. -/
noncomputable def resolve_overlaps_checked (pixel_positions : List Pos)
    (min_distance : ℝ) : Option (List Pos) :=
  (resolveLoopChecked min_distance max_iterations pixel_positions).map Prod.fst

/-- The tiered line width of `render_map` (lines 206-211): width 5 below
distance 5, width 4 below distance 8, otherwise width 3. -/
noncomputable def lineWidth (dist_ly : ℝ) : ℕ :=
  if dist_ly < 5 then 5 else if dist_ly < 8 then 4 else 3

/-- The connection lines drawn by `render_map` (lines 200-213): one line
per pair whose 3D distance is below `CLOSE_DISTANCE_LY`, recorded as
(index pair, tiered width, the two pixel endpoints). -/
noncomputable def renderLines (distances : List ((ℕ × ℕ) × ℝ))
    (pixel_positions : List Pos) : List ((ℕ × ℕ) × ℕ × (Pos × Pos)) :=
  (distances.filter (fun e => decide (e.2 < CLOSE_DISTANCE_LY))).map
    (fun e => (e.1, lineWidth e.2,
      (pixel_positions.getD e.1.1 (0, 0), pixel_positions.getD e.1.2 (0, 0))))

/-- The Python expression computing the marker-size multiplier
(lines 221-222): `size_factor = (lum ** (1/3)) if lum > 0 else 1.0;
size_factor = min(size_factor, 3.0)`.  A SQL NULL luminosity reaches the
comparison `lum > 0` as Python `None`, which raises `TypeError`;
the fault is modelled as `none`. -/
noncomputable def size_factor (lum : Option ℝ) : Option ℝ :=
  match lum with
  | none => none
  | some l => some (min (if 0 < l then l ^ ((1 : ℝ) / 3) else 1) 3)

/-- `main` (lines 283-307) as a pure pipeline over a catalog: abort when
the reference lookup failed, otherwise compute pair distances, project,
declutter with `min_distance = 150`, and produce the drawn connection
lines with the final positions. -/
noncomputable def pipeline (catalog : List Star) :
    Option (List ((ℕ × ℕ) × ℝ) × List Pos × List ((ℕ × ℕ) × ℕ × (Pos × Pos))) :=
  match get_stars_near_amateru catalog with
  | Except.error _ => none
  | Except.ok (amateru, nearby_stars) =>
    let distances := calculate_distances amateru nearby_stars
    let pixel_positions := project_to_2d nearby_stars
    let resolved := resolve_overlaps pixel_positions 150
    some (distances, resolved, renderLines distances resolved)

/-- The 9-variable tuple unpacking performed per star row by `render_map`
(line 217: `star_id, name, x, y, z, spec, radius, mass, lum = star`) and by
the preview loop (line 83).  Python raises `ValueError` unless the row has
exactly 9 fields; the fault is modelled as `none`. -/
def unpack9 (r : Row) :
    Option (Field × Field × Field × Field × Field × Field × Field × Field × Field) :=
  match r with
  | [a, b, c, d, e, f, g, h, i] => some (a, b, c, d, e, f, g, h, i)
  | _ => none

/-- The projection formula as the specification words it (§4.2): padded
spans `(max - min) * (1 + paddingFraction)`, uniform scale
`min((canvasWidth - 2*margin) / paddedXSpan, (canvasHeight - 2*margin) /
paddedYSpan)` when both padded spans are positive and `1.0` otherwise, and
pixel position `(coordinate - boundingBoxCenter) * scale + canvasCenter`
per axis.  Stated over the retained 2D coordinates, for comparison with
`project_to_2d`. -/
noncomputable def projectSpec (pts : List Pos)
    (canvasWidth canvasHeight margin paddingFraction : ℝ) : List Pos :=
  let minX := listMin (pts.map Prod.fst)
  let maxX := listMax (pts.map Prod.fst)
  let minY := listMin (pts.map Prod.snd)
  let maxY := listMax (pts.map Prod.snd)
  let paddedXSpan := (maxX - minX) * (1 + paddingFraction)
  let paddedYSpan := (maxY - minY) * (1 + paddingFraction)
  let scale :=
    if 0 < paddedXSpan ∧ 0 < paddedYSpan then
      min ((canvasWidth - 2 * margin) / paddedXSpan)
        ((canvasHeight - 2 * margin) / paddedYSpan)
    else 1
  pts.map (fun p =>
    ((p.1 - (minX + maxX) / 2) * scale + canvasWidth / 2,
     (p.2 - (minY + maxY) / 2) * scale + canvasHeight / 2))

/-- The connection pairs and widths as the specification words them
(§4.4): one entry per pair whose 3D distance is below the close
threshold, with the tiered width — a function of the 3D distances only,
taking no pixel positions.  For comparison with `renderLines`. -/
noncomputable def drawnPairsWidths (distances : List ((ℕ × ℕ) × ℝ)) :
    List ((ℕ × ℕ) × ℕ) :=
  (distances.filter (fun e => decide (e.2 < CLOSE_DISTANCE_LY))).map
    (fun e => (e.1, lineWidth e.2))

/-- The reference star of the test scenarios, at the origin. -/
def amateruStar : Star :=
  ⟨1, "Amateru", 0, 0, 0, "K7V", none, none, some 1⟩

/-- Scenario B star A at (5, 0, 0). -/
def starA : Star := ⟨2, "A", 5, 0, 0, "G2V", none, none, some 1⟩

/-- Scenario B star B at (0, 5, 0). -/
def starB : Star := ⟨3, "B", 0, 5, 0, "M1V", none, none, none⟩

/-- The Scenario B catalog: reference at the origin, A at (5,0,0),
B at (0,5,0). -/
def scenarioB_catalog : List Star := [amateruStar, starA, starB]

/-- The reference 5-tuple returned for the Scenario B catalog. -/
def scenarioB_ref : ℤ × String × ℝ × ℝ × ℝ := (1, "Amateru", 0, 0, 0)

/-- The selected rows returned for the Scenario B catalog. -/
def scenarioB_rows : List Row := [row6 amateruStar, row9 starA, row9 starB]

/-- A star outside the 20-ly selection radius (distance 30). -/
def farStar : Star := ⟨4, "Far", 30, 0, 0, "A0V", none, none, some 10⟩

/-- A star inside the 20-ly selection radius (distance 5). -/
def nearStar : Star := ⟨5, "Near", 3, 4, 0, "G8V", none, none, some 2⟩

/-- A 3-star catalog exercising both sides of the radius test. -/
def witnessCatalog : List Star := [amateruStar, farStar, nearStar]

/-- A catalog whose reference star is stored with different letter
casing. -/
def upperCatalog : List Star :=
  [⟨6, "AMATERU", 1, 2, 3, "K0V", none, none, none⟩]

/-- A catalog that does not contain the reference star under any
casing. -/
def missCatalog : List Star :=
  [⟨7, "Sirius", 1, 2, 3, "A1V", none, none, some 25⟩, ⟨8, "Vega", 5, 5, 5, "A0V", none, none, none⟩]

/-! ### Helper lemmas -/

theorem mem_pairsList {n i j : ℕ} (h : (i, j) ∈ pairsList n) : i < j ∧ j < n := by
  simp only [pairsList, List.mem_flatMap, List.mem_map, List.mem_range,
    List.mem_range'_1, Prod.mk.injEq] at h
  obtain ⟨a, ha, b, hb, hai, hbj⟩ := h
  subst hai; subst hbj
  omega

theorem foldl_fixed_mem {α β : Type} (f : β → α → β) :
    ∀ (l : List α) (s : β), (∀ x ∈ l, f s x = s) → l.foldl f s = s
  | [], _, _ => rfl
  | x :: xs, s, h => by
    rw [List.foldl_cons, h x (List.mem_cons_self x xs)]
    exact foldl_fixed_mem f xs s fun y hy => h y (List.mem_cons_of_mem x hy)

theorem foldlM_eq_some {α β : Type} (g : β → α → Option β) (f : β → α → β)
    (hg : ∀ s a, g s a = some (f s a)) :
    ∀ (l : List α) (s : β), List.foldlM g s l = some (l.foldl f s)
  | [], _ => rfl
  | x :: xs, s => by
    rw [List.foldlM_cons, hg s x, List.foldl_cons]
    show (some (f s x)).bind (fun init => List.foldlM g init xs) = _
    rw [Option.some_bind]
    exact foldlM_eq_some g f hg xs (f s x)

theorem sum_set_getD {M : Type} [AddCommGroup M] (d : M) :
    ∀ (l : List M) (i : ℕ) (a : M), i < l.length →
      (l.set i a).sum = l.sum - l.getD i d + a
  | [], i, _, h => by simp at h
  | x :: xs, 0, a, _ => by
    simp only [List.set_cons_zero, List.sum_cons, List.getD_cons_zero]
    abel
  | x :: xs, i + 1, a, h => by
    rw [List.set_cons_succ, List.sum_cons, List.sum_cons, List.getD_cons_succ,
      sum_set_getD d xs i a (by simpa using h)]
    abel

theorem getD_set_ne {α : Type} (l : List α) {i j : ℕ} (h : i ≠ j) (a d : α) :
    (l.set i a).getD j d = l.getD j d := by
  rw [List.getD_eq_getElem?_getD, List.getD_eq_getElem?_getD, List.getElem?_set_ne h]

theorem pairStep_fst_length (minD : ℝ) (st : List Pos × Bool) (ij : ℕ × ℕ) :
    (pairStep minD st ij).1.length = st.1.length := by
  simp only [pairStep]
  split
  · simp [List.length_set]
  · rfl

theorem pairStep_fst_sum (minD : ℝ) (st : List Pos × Bool) (ij : ℕ × ℕ)
    (hij : ij.1 < ij.2) (hj : ij.2 < st.1.length) :
    (pairStep minD st ij).1.sum = st.1.sum := by
  simp only [pairStep]
  split
  · rw [sum_set_getD ((0 : ℝ), (0 : ℝ)) _ ij.2 _ (by rw [List.length_set]; exact hj),
      getD_set_ne _ (Nat.ne_of_lt hij) _ _,
      sum_set_getD ((0 : ℝ), (0 : ℝ)) _ ij.1 _ (lt_trans hij hj)]
    rw [Prod.ext_iff]
    constructor <;>
      simp only [Prod.fst_sub, Prod.snd_sub, Prod.fst_add, Prod.snd_add] <;> ring
  · rfl

theorem foldl_pairStep_inv (minD : ℝ) :
    ∀ (l : List (ℕ × ℕ)) (st : List Pos × Bool),
      (∀ p ∈ l, p.1 < p.2 ∧ p.2 < st.1.length) →
      (l.foldl (pairStep minD) st).1.sum = st.1.sum ∧
      (l.foldl (pairStep minD) st).1.length = st.1.length
  | [], _, _ => ⟨rfl, rfl⟩
  | p :: ps, st, h => by
    rw [List.foldl_cons]
    have hp := h p (List.mem_cons_self p ps)
    have hlen := pairStep_fst_length minD st p
    have hsum := pairStep_fst_sum minD st p hp.1 hp.2
    have ih := foldl_pairStep_inv minD ps (pairStep minD st p) (fun q hq =>
      ⟨(h q (List.mem_cons_of_mem p hq)).1, by
        rw [hlen]; exact (h q (List.mem_cons_of_mem p hq)).2⟩)
    exact ⟨ih.1.trans hsum, ih.2.trans hlen⟩

theorem onePass_fst_sum_length (minD : ℝ) (ps : List Pos) :
    (onePass minD ps).1.sum = ps.sum ∧ (onePass minD ps).1.length = ps.length := by
  unfold onePass
  exact foldl_pairStep_inv minD _ (ps, false) (fun p hp => by
    obtain ⟨i, j⟩ := p
    exact mem_pairsList hp)

theorem resolveLoop_fst_sum_length (minD : ℝ) :
    ∀ (n : ℕ) (ps : List Pos),
      (resolveLoop minD n ps).1.sum = ps.sum ∧
      (resolveLoop minD n ps).1.length = ps.length
  | 0, _ => ⟨rfl, rfl⟩
  | n + 1, ps => by
    simp only [resolveLoop]
    split
    · have hop := onePass_fst_sum_length minD ps
      have ih := resolveLoop_fst_sum_length minD n (onePass minD ps).1
      exact ⟨ih.1.trans hop.1, ih.2.trans hop.2⟩
    · exact onePass_fst_sum_length minD ps

theorem onePass_of_separated (minD : ℝ) (ps : List Pos)
    (h : ∀ i j, i < j → j < ps.length →
      minD ≤ Real.sqrt (((ps.getD j (0, 0)).1 - (ps.getD i (0, 0)).1) ^ 2 +
        ((ps.getD j (0, 0)).2 - (ps.getD i (0, 0)).2) ^ 2)) :
    onePass minD ps = (ps, false) := by
  unfold onePass
  apply foldl_fixed_mem
  intro p hp
  obtain ⟨i, j⟩ := p
  obtain ⟨hij, hj⟩ := mem_pairsList hp
  simp only [pairStep]
  split
  · rename_i hc
    exact absurd hc.1 (not_lt.2 (h i j hij hj))
  · rfl

theorem resolveLoop_of_no_move (minD : ℝ) (ps : List Pos)
    (h : onePass minD ps = (ps, false)) (n : ℕ) :
    resolveLoop minD (n + 1) ps = (ps, 1) := by
  simp [resolveLoop, h]

theorem pairStepChecked_eq (minD : ℝ) (st : List Pos × Bool) (ij : ℕ × ℕ) :
    pairStepChecked minD st ij = some (pairStep minD st ij) := by
  simp only [pairStepChecked, pairStep, safeDiv]
  split
  · rename_i h
    rw [if_neg h.2.ne', if_neg h.2.ne']
  · rfl

theorem onePassChecked_eq (minD : ℝ) (ps : List Pos) :
    onePassChecked minD ps = some (onePass minD ps) :=
  foldlM_eq_some _ _ (pairStepChecked_eq minD) _ _

theorem resolveLoopChecked_eq (minD : ℝ) :
    ∀ (n : ℕ) (ps : List Pos),
      resolveLoopChecked minD n ps = some (resolveLoop minD n ps)
  | 0, _ => rfl
  | n + 1, ps => by
    simp only [resolveLoopChecked, resolveLoop, onePassChecked_eq minD ps,
      Option.bind_eq_bind, Option.some_bind]
    split
    · rw [resolveLoopChecked_eq minD n]
      rfl
    · rfl

/-! ### Claim theorems for the declutter loop -/

/-- C10: `resolve_overlaps` preserves the vector sum of the positions (and
their number, hence the centroid): each pairwise repulsion moves the two
points of a pair by exactly opposite vectors, so every pass and therefore
the whole bounded loop leaves the componentwise sum unchanged under exact
real arithmetic. -/
theorem resolve_overlaps_preserves_sum (ps : List Pos) (minD : ℝ) :
    (resolve_overlaps ps minD).sum = ps.sum ∧
    (resolve_overlaps ps minD).length = ps.length :=
  resolveLoop_fst_sum_length minD max_iterations ps

/-- C9: if every pair of input pixel positions is already at Euclidean
distance at least `minD`, then `resolve_overlaps` returns the positions
unchanged and the loop terminates early after exactly one pass in which no
pair moved. -/
theorem resolve_overlaps_separated_fixed (ps : List Pos) (minD : ℝ)
    (h : ∀ i j, i < j → j < ps.length →
      minD ≤ Real.sqrt (((ps.getD j (0, 0)).1 - (ps.getD i (0, 0)).1) ^ 2 +
        ((ps.getD j (0, 0)).2 - (ps.getD i (0, 0)).2) ^ 2)) :
    resolve_overlaps ps minD = ps ∧ (resolveLoop minD max_iterations ps).2 = 1 := by
  have hop := onePass_of_separated minD ps h
  have hloop : resolveLoop minD max_iterations ps = (ps, 1) := by
    rw [show max_iterations = 49 + 1 from rfl]
    exact resolveLoop_of_no_move minD ps hop 49
  constructor
  · show (resolveLoop minD max_iterations ps).1 = ps
    rw [hloop]
  · rw [hloop]

/-- Witness for C9 at the concrete input `[(0,0), (300,0)]` with
`minD = 150`: the only pair is at distance 300 ≥ 150, and `resolve`
returns it unchanged after one pass. -/
theorem resolve_overlaps_separated_fixed_witness :
    (∀ i j, i < j → j < ([((0 : ℝ), (0 : ℝ)), ((300 : ℝ), (0 : ℝ))] : List Pos).length →
      (150 : ℝ) ≤ Real.sqrt
        (((([((0 : ℝ), (0 : ℝ)), ((300 : ℝ), (0 : ℝ))] : List Pos).getD j (0, 0)).1 -
            (([((0 : ℝ), (0 : ℝ)), ((300 : ℝ), (0 : ℝ))] : List Pos).getD i (0, 0)).1) ^ 2 +
          ((([((0 : ℝ), (0 : ℝ)), ((300 : ℝ), (0 : ℝ))] : List Pos).getD j (0, 0)).2 -
            (([((0 : ℝ), (0 : ℝ)), ((300 : ℝ), (0 : ℝ))] : List Pos).getD i (0, 0)).2) ^ 2)) ∧
    resolve_overlaps [((0 : ℝ), (0 : ℝ)), ((300 : ℝ), (0 : ℝ))] 150 =
      [((0 : ℝ), (0 : ℝ)), ((300 : ℝ), (0 : ℝ))] ∧
    (resolveLoop 150 max_iterations [((0 : ℝ), (0 : ℝ)), ((300 : ℝ), (0 : ℝ))]).2 = 1 := by
  have h300 : Real.sqrt 90000 = 300 := by
    rw [show (90000 : ℝ) = 300 ^ 2 by norm_num,
      Real.sqrt_sq (by norm_num : (0 : ℝ) ≤ 300)]
  have h : ∀ i j, i < j → j < ([((0 : ℝ), (0 : ℝ)), ((300 : ℝ), (0 : ℝ))] : List Pos).length →
      (150 : ℝ) ≤ Real.sqrt
        (((([((0 : ℝ), (0 : ℝ)), ((300 : ℝ), (0 : ℝ))] : List Pos).getD j (0, 0)).1 -
            (([((0 : ℝ), (0 : ℝ)), ((300 : ℝ), (0 : ℝ))] : List Pos).getD i (0, 0)).1) ^ 2 +
          ((([((0 : ℝ), (0 : ℝ)), ((300 : ℝ), (0 : ℝ))] : List Pos).getD j (0, 0)).2 -
            (([((0 : ℝ), (0 : ℝ)), ((300 : ℝ), (0 : ℝ))] : List Pos).getD i (0, 0)).2) ^ 2) := by
    intro i j hij hj
    simp only [List.length_cons, List.length_nil] at hj
    interval_cases j
    · omega
    · interval_cases i
      simp only [List.getD_cons_succ, List.getD_cons_zero]
      rw [show (((300 : ℝ), (0 : ℝ)).1 - ((0 : ℝ), (0 : ℝ)).1) ^ 2 +
          (((300 : ℝ), (0 : ℝ)).2 - ((0 : ℝ), (0 : ℝ)).2) ^ 2 = 90000 by norm_num]
      rw [h300]
      norm_num
  exact ⟨h, (resolve_overlaps_separated_fixed _ _ h).1,
    (resolve_overlaps_separated_fixed _ _ h).2⟩

/-- C1 (the code violates the stated post-condition): on the input
`[(0,0), (0,0)]` with `min_distance = 150`, the guard
`dist < min_distance and dist > 0` skips the exactly-coincident pair, so
`resolve_overlaps` returns the positions unchanged after a single pass
(not all 50), with the pair distance still 0 < 150. -/
theorem resolve_overlaps_coincident_skipped :
    resolve_overlaps [((0 : ℝ), (0 : ℝ)), ((0 : ℝ), (0 : ℝ))] 150 =
      [((0 : ℝ), (0 : ℝ)), ((0 : ℝ), (0 : ℝ))] ∧
    (resolveLoop 150 max_iterations [((0 : ℝ), (0 : ℝ)), ((0 : ℝ), (0 : ℝ))]).2 = 1 ∧
    1 < max_iterations ∧
    Real.sqrt
      (((resolve_overlaps [((0 : ℝ), (0 : ℝ)), ((0 : ℝ), (0 : ℝ))] 150).getD 1 (0, 0)).1 -
          ((resolve_overlaps [((0 : ℝ), (0 : ℝ)), ((0 : ℝ), (0 : ℝ))] 150).getD 0 (0, 0)).1) ^ 2
      < 150 := by
  have hstep : pairStep 150 (([((0 : ℝ), (0 : ℝ)), ((0 : ℝ), (0 : ℝ))] : List Pos), false)
      (0, 1) = (([((0 : ℝ), (0 : ℝ)), ((0 : ℝ), (0 : ℝ))] : List Pos), false) := by
    simp only [pairStep, List.getD_cons_zero, List.getD_cons_succ]
    norm_num
  have hop : onePass 150 [((0 : ℝ), (0 : ℝ)), ((0 : ℝ), (0 : ℝ))] =
      ([((0 : ℝ), (0 : ℝ)), ((0 : ℝ), (0 : ℝ))], false) := by
    unfold onePass
    rw [show pairsList ([((0 : ℝ), (0 : ℝ)), ((0 : ℝ), (0 : ℝ))] : List Pos).length =
        [(0, 1)] from rfl, List.foldl_cons, hstep, List.foldl_nil]
  have hloop : resolveLoop 150 max_iterations [((0 : ℝ), (0 : ℝ)), ((0 : ℝ), (0 : ℝ))] =
      ([((0 : ℝ), (0 : ℝ)), ((0 : ℝ), (0 : ℝ))], 1) := by
    rw [show max_iterations = 49 + 1 from rfl]
    exact resolveLoop_of_no_move 150 _ hop 49
  have hres : resolve_overlaps [((0 : ℝ), (0 : ℝ)), ((0 : ℝ), (0 : ℝ))] 150 =
      [((0 : ℝ), (0 : ℝ)), ((0 : ℝ), (0 : ℝ))] := by
    show (resolveLoop 150 max_iterations _).1 = _
    rw [hloop]
  refine ⟨hres, by rw [hloop], by norm_num [max_iterations], ?_⟩
  rw [hres]
  simp only [List.getD_cons_zero, List.getD_cons_succ]
  norm_num

/-- C4: no division by zero occurs anywhere in the declutter loop: the
variant of `resolve_overlaps` in which both normalization divisions fault
on a zero divisor always succeeds and agrees with `resolve_overlaps`,
because the normalization is only evaluated under the guard
`0 < dist`. -/
theorem resolve_overlaps_no_div_by_zero (ps : List Pos) (minD : ℝ) :
    resolve_overlaps_checked ps minD = some (resolve_overlaps ps minD) := by
  unfold resolve_overlaps_checked resolve_overlaps
  rw [resolveLoopChecked_eq]
  rfl

/-! ### Claim theorems for the projector and the marker sizing -/

/-- C5: for every non-empty selected set, `project_to_2d` drops the third
axis and maps each retained 2D coordinate by
`(coordinate - boundingBoxCenter) * scale + canvasCenter` with the uniform
scale `min((width - 2*margin)/paddedXSpan, (height - 2*margin)/paddedYSpan)`
when both padded spans are positive and `1.0` otherwise (the formula
`projectSpec` taken from the specification); in particular a single star
maps exactly to the canvas center, with no division by zero. -/
theorem project_to_2d_follows_spec (stars : List Row) (h : stars ≠ []) :
    project_to_2d stars =
      projectSpec (positions2d stars) OUTPUT_WIDTH OUTPUT_HEIGHT 300 0.1 ∧
    ∀ r : Row, project_to_2d [r] = [(OUTPUT_WIDTH / 2, OUTPUT_HEIGHT / 2)] := by
  constructor
  · obtain ⟨a, l, rfl⟩ : ∃ a l, stars = a :: l := by
      cases stars with
      | nil => exact absurd rfl h
      | cons a l => exact ⟨a, l, rfl⟩
    simp only [project_to_2d, projectSpec, List.isEmpty_cons, Bool.false_eq_true,
      if_false]
  · intro r
    simp only [project_to_2d, positions2d, List.isEmpty_cons, Bool.false_eq_true,
      if_false, List.map_cons, List.map_nil, listMin, listMax, List.foldl_nil,
      sub_self, zero_mul, lt_irrefl, false_and, if_false]
    simp only [List.cons.injEq, Prod.mk.injEq, and_true]
    constructor <;> ring

/-- Witness for C5 at the Scenario B selected rows (a non-empty list). -/
theorem project_to_2d_follows_spec_witness :
    scenarioB_rows ≠ [] ∧
    (project_to_2d scenarioB_rows =
      projectSpec (positions2d scenarioB_rows) OUTPUT_WIDTH OUTPUT_HEIGHT 300 0.1 ∧
    ∀ r : Row, project_to_2d [r] = [(OUTPUT_WIDTH / 2, OUTPUT_HEIGHT / 2)]) :=
  ⟨by simp [scenarioB_rows], project_to_2d_follows_spec _ (by simp [scenarioB_rows])⟩

/-- C6 (the missing-luminosity case faults): the marker-size multiplier is
`min(lum^(1/3), 3)` for positive luminosity and `1.0` for non-positive
luminosity, but a missing (SQL NULL) luminosity reaches `lum > 0` as
Python `None` and raises `TypeError` (modelled as `none`) instead of
defaulting to `1.0` as the claim requires. -/
theorem size_factor_spec :
    size_factor none = none ∧
    (∀ l : ℝ, l ≤ 0 → size_factor (some l) = some 1) ∧
    (∀ l : ℝ, 0 < l → size_factor (some l) = some (min (l ^ ((1 : ℝ) / 3)) 3)) := by
  refine ⟨rfl, fun l hl => ?_, fun l hl => ?_⟩
  · simp only [size_factor, if_neg (not_lt.2 hl)]
    rw [min_eq_left (by norm_num : (1 : ℝ) ≤ 3)]
  · simp only [size_factor, if_pos hl]

/-- Witness for C6: the fault at missing luminosity, the default at
luminosity -1, and the clamped cube root at luminosity 8. -/
theorem size_factor_spec_witness :
    size_factor none = none ∧
    ((-1 : ℝ) ≤ 0 ∧ size_factor (some (-1)) = some 1) ∧
    ((0 : ℝ) < 8 ∧ size_factor (some 8) = some (min ((8 : ℝ) ^ ((1 : ℝ) / 3)) 3)) :=
  ⟨size_factor_spec.1,
   ⟨by norm_num, size_factor_spec.2.1 (-1) (by norm_num)⟩,
   ⟨by norm_num, size_factor_spec.2.2 8 (by norm_num)⟩⟩

/-! ### Helper lemmas for the selection step -/

theorem optField_injective : Function.Injective optField := by
  intro a b h
  cases a with
  | none =>
    cases b with
    | none => rfl
    | some v => simp [optField] at h
  | some u =>
    cases b with
    | none => simp [optField] at h
    | some v =>
      simp only [optField, Field.r.injEq] at h
      rw [h]

theorem row9_injective {s t : Star} (h : row9 s = row9 t) : s = t := by
  obtain ⟨id1, n1, x1, y1, z1, sp1, r1, m1, l1⟩ := s
  obtain ⟨id2, n2, x2, y2, z2, sp2, r2, m2, l2⟩ := t
  simp only [row9, List.cons.injEq, Field.i.injEq, Field.s.injEq, Field.r.injEq,
    and_true] at h
  obtain ⟨h1, h2, h3, h4, h5, h6, h7, h8, h9⟩ := h
  simp only [Star.mk.injEq]
  exact ⟨h1, h2, h3, h4, h5, h6, optField_injective h7, optField_injective h8,
    optField_injective h9⟩

theorem row9_ne_row6 (s t : Star) : row9 s ≠ row6 t := by
  intro h
  have hlen := congrArg List.length h
  simp [row9, row6] at hlen

theorem lookupAmateru_mem {catalog : List Star} {ref : Star}
    (h : lookupAmateru catalog = some ref) : ref ∈ catalog := by
  unfold lookupAmateru at h
  split at h
  · rename_i st heq
    cases h
    exact List.mem_of_find?_eq_some heq
  · exact List.mem_of_find?_eq_some h

theorem mem_nearbyLoop (ref s : Star) :
    ∀ catalog : List Star, s ∈ nearbyLoop ref catalog ↔
      s ∈ catalog ∧ s.id ≠ ref.id ∧ dist3 ref s ≤ REGION_RADIUS_LY
  | [] => by simp [nearbyLoop]
  | st :: rest => by
    simp only [nearbyLoop]
    by_cases hid : st.id = ref.id
    · rw [if_pos hid, mem_nearbyLoop ref s rest]
      simp only [List.mem_cons]
      constructor
      · rintro ⟨hm, hne, hd⟩
        exact ⟨Or.inr hm, hne, hd⟩
      · rintro ⟨hm | hm, hne, hd⟩
        · exact absurd (hm ▸ hid) hne
        · exact ⟨hm, hne, hd⟩
    · rw [if_neg hid]
      by_cases hd : dist3 ref st ≤ REGION_RADIUS_LY
      · rw [if_pos hd]
        simp only [List.mem_cons, mem_nearbyLoop ref s rest]
        constructor
        · rintro (rfl | ⟨hm, hne, hdd⟩)
          · exact ⟨Or.inl rfl, hid, hd⟩
          · exact ⟨Or.inr hm, hne, hdd⟩
        · rintro ⟨rfl | hm, hne, hdd⟩
          · exact Or.inl rfl
          · exact Or.inr ⟨hm, hne, hdd⟩
      · rw [if_neg hd, mem_nearbyLoop ref s rest]
        simp only [List.mem_cons]
        constructor
        · rintro ⟨hm, hne, hdd⟩
          exact ⟨Or.inr hm, hne, hdd⟩
        · rintro ⟨rfl | hm, hne, hdd⟩
          · exact absurd hdd hd
          · exact ⟨hm, hne, hdd⟩

theorem nearbyLoop_sublist (ref : Star) :
    ∀ catalog : List Star, (nearbyLoop ref catalog).Sublist catalog
  | [] => List.Sublist.refl []
  | st :: rest => by
    simp only [nearbyLoop]
    by_cases hid : st.id = ref.id
    · rw [if_pos hid]
      exact (nearbyLoop_sublist ref rest).cons st
    · rw [if_neg hid]
      by_cases hd : dist3 ref st ≤ REGION_RADIUS_LY
      · rw [if_pos hd]
        exact (nearbyLoop_sublist ref rest).cons₂ st
      · rw [if_neg hd]
        exact (nearbyLoop_sublist ref rest).cons st

theorem calculate_distances_keys (a : ℤ × String × ℝ × ℝ × ℝ) (rows : List Row) :
    (calculate_distances a rows).map Prod.fst = pairsList rows.length := by
  unfold calculate_distances
  rw [List.map_map]
  exact List.map_id _

/-! ### Claim theorems for the selection step -/

/-- C2 (the claim fails on the code): whenever the selection step
succeeds, the first element of the selected sequence is the reference
star's 6-field row (the first query omits radius, mass and luminosity), so
the renderer's 9-field extraction `unpack9` faults on index 0 instead of
succeeding for every index as the claim requires. -/
theorem selected_head_unpack_fails (catalog : List Star)
    (ref5 : ℤ × String × ℝ × ℝ × ℝ) (rows : List Row)
    (h : get_stars_near_amateru catalog = Except.ok (ref5, rows)) :
    ∃ r : Row, rows.head? = some r ∧ r.length = 6 ∧ unpack9 r = none := by
  unfold get_stars_near_amateru at h
  split at h
  · exact Except.noConfusion h
  · rename_i ref heq
    cases h
    exact ⟨row6 ref, rfl, rfl, rfl⟩

/-- Witness for C2 at the one-star catalog containing only the reference
star. -/
theorem selected_head_unpack_fails_witness :
    get_stars_near_amateru [amateruStar] =
      Except.ok ((1, "Amateru", 0, 0, 0), [row6 amateruStar]) ∧
    ∃ r : Row, ([row6 amateruStar] : List Row).head? = some r ∧ r.length = 6 ∧
      unpack9 r = none := by
  have h : get_stars_near_amateru [amateruStar] =
      Except.ok ((1, "Amateru", 0, 0, 0), [row6 amateruStar]) := rfl
  exact ⟨h, selected_head_unpack_fails _ _ _ h⟩

/-- C3: for a catalog with pairwise-distinct ids in which the reference
lookup finds `ref`, the selection returns the reference first, every other
catalog star appears (as its 9-field row) iff its 3D distance to the
reference is at most the selection radius (inclusive), the non-reference
rows keep their catalog order (sublist), and the result has no duplicate
ids. -/
theorem selection_spec (catalog : List Star) (ref : Star)
    (hnodup : (catalog.map Star.id).Nodup)
    (hfind : lookupAmateru catalog = some ref) :
    get_stars_near_amateru catalog =
      Except.ok ((ref.id, ref.name, ref.x, ref.y, ref.z),
        row6 ref :: (nearbyLoop ref catalog).map row9) ∧
    (∀ s ∈ catalog, s ≠ ref →
      (row9 s ∈ row6 ref :: (nearbyLoop ref catalog).map row9 ↔
        dist3 ref s ≤ REGION_RADIUS_LY)) ∧
    (nearbyLoop ref catalog).Sublist catalog ∧
    ((row6 ref :: (nearbyLoop ref catalog).map row9).map
      (fun r => r.getD 0 Field.null)).Nodup := by
  have href : ref ∈ catalog := lookupAmateru_mem hfind
  have hinj := List.inj_on_of_nodup_map hnodup
  refine ⟨?_, ?_, nearbyLoop_sublist ref catalog, ?_⟩
  · unfold get_stars_near_amateru
    rw [hfind]
  · intro s hs hne
    have hid : s.id ≠ ref.id := fun hc => hne (hinj hs href hc)
    constructor
    · intro hmem
      rcases List.mem_cons.1 hmem with hc | hc
      · exact absurd hc (row9_ne_row6 s ref)
      · obtain ⟨a, ha, heq⟩ := List.mem_map.1 hc
        have := (mem_nearbyLoop ref a catalog).1 ha
        rw [row9_injective heq] at this
        exact this.2.2
    · intro hdist
      exact List.mem_cons_of_mem _
        (List.mem_map_of_mem row9 ((mem_nearbyLoop ref s catalog).2 ⟨hs, hid, hdist⟩))
  · have hmapeq : ((row6 ref :: (nearbyLoop ref catalog).map row9).map
        (fun r => r.getD 0 Field.null)) =
        Field.i ref.id :: ((nearbyLoop ref catalog).map Star.id).map Field.i := by
      simp only [List.map_cons, List.map_map]
      rfl
    rw [hmapeq, List.nodup_cons]
    constructor
    · intro hc
      obtain ⟨n, hn, heq⟩ := List.mem_map.1 hc
      obtain ⟨a, ha, rfl⟩ := List.mem_map.1 hn
      have : a.id = ref.id := Field.i.injEq _ _ ▸ heq
      exact absurd this ((mem_nearbyLoop ref a catalog).1 ha).2.1
    · exact List.Nodup.map (fun a b hab => Field.i.injEq a b ▸ hab)
        (List.Nodup.sublist ((nearbyLoop_sublist ref catalog).map Star.id) hnodup)

/-- Witness for C3 at a 3-star catalog: the reference at the origin, a
star at distance 30 (excluded) and a star at distance 5 (included). -/
theorem selection_spec_witness :
    (witnessCatalog.map Star.id).Nodup ∧
    lookupAmateru witnessCatalog = some amateruStar ∧
    (get_stars_near_amateru witnessCatalog =
      Except.ok ((amateruStar.id, amateruStar.name, amateruStar.x, amateruStar.y,
          amateruStar.z),
        row6 amateruStar :: (nearbyLoop amateruStar witnessCatalog).map row9) ∧
    (∀ s ∈ witnessCatalog, s ≠ amateruStar →
      (row9 s ∈ row6 amateruStar :: (nearbyLoop amateruStar witnessCatalog).map row9 ↔
        dist3 amateruStar s ≤ REGION_RADIUS_LY)) ∧
    (nearbyLoop amateruStar witnessCatalog).Sublist witnessCatalog ∧
    ((row6 amateruStar :: (nearbyLoop amateruStar witnessCatalog).map row9).map
      (fun r => r.getD 0 Field.null)).Nodup) := by
  have h1 : (witnessCatalog.map Star.id).Nodup := by decide
  have h2 : lookupAmateru witnessCatalog = some amateruStar := rfl
  exact ⟨h1, h2, selection_spec witnessCatalog amateruStar h1 h2⟩

/-- C8: the reference lookup succeeds whenever some catalog star's name
matches `Amateru` case-insensitively (even with no exact-case match); when
no star matches under either policy, the selection returns the diagnostic
sample listing of catalog names as the error and the pipeline aborts
(producing no projection, declutter or render output). -/
theorem reference_lookup_and_abort (catalog : List Star) :
    ((∃ s ∈ catalog, sqlLower s.name = "amateru") →
      ∃ ref rows, get_stars_near_amateru catalog = Except.ok (ref, rows)) ∧
    ((∀ s ∈ catalog, sqlLower s.name ≠ "amateru") →
      get_stars_near_amateru catalog = Except.error (sampleNames catalog) ∧
      pipeline catalog = none) := by
  constructor
  · rintro ⟨s, hs, hname⟩
    have : ∃ ref, lookupAmateru catalog = some ref := by
      unfold lookupAmateru
      cases hf : catalog.find? (fun t => t.name == "Amateru") with
      | some st => exact ⟨st, rfl⟩
      | none =>
        cases hg : catalog.find? (fun t => sqlLower t.name == "amateru") with
        | some st => exact ⟨st, rfl⟩
        | none =>
          exact absurd (beq_iff_eq.2 hname) (List.find?_eq_none.1 hg s hs)
    obtain ⟨ref, href⟩ := this
    refine ⟨(ref.id, ref.name, ref.x, ref.y, ref.z),
      row6 ref :: (nearbyLoop ref catalog).map row9, ?_⟩
    unfold get_stars_near_amateru
    rw [href]
  · intro hnone
    have hlow : sqlLower "Amateru" = "amateru" := by decide
    have hf1 : catalog.find? (fun t => t.name == "Amateru") = none := by
      rw [List.find?_eq_none]
      intro t ht hc
      have : t.name = "Amateru" := beq_iff_eq.1 hc
      exact hnone t ht (by rw [this, hlow])
    have hf2 : catalog.find? (fun t => sqlLower t.name == "amateru") = none := by
      rw [List.find?_eq_none]
      intro t ht hc
      exact hnone t ht (beq_iff_eq.1 hc)
    have hlook : lookupAmateru catalog = none := by
      unfold lookupAmateru
      rw [hf1, hf2]
    have herr : get_stars_near_amateru catalog =
        Except.error (sampleNames catalog) := by
      unfold get_stars_near_amateru
      rw [hlook]
    refine ⟨herr, ?_⟩
    unfold pipeline
    rw [herr]

/-- Witness for C8: the lookup succeeds on a catalog storing the
reference star as `AMATERU`, and on a catalog with no match the selection
surfaces the sample listing and the pipeline aborts. -/
theorem reference_lookup_and_abort_witness :
    (∃ s ∈ upperCatalog, sqlLower s.name = "amateru") ∧
    (∃ ref rows, get_stars_near_amateru upperCatalog = Except.ok (ref, rows)) ∧
    (∀ s ∈ missCatalog, sqlLower s.name ≠ "amateru") ∧
    (get_stars_near_amateru missCatalog = Except.error (sampleNames missCatalog) ∧
      pipeline missCatalog = none) := by
  refine ⟨by decide, (reference_lookup_and_abort upperCatalog).1 (by decide),
    by decide, (reference_lookup_and_abort missCatalog).2 (by decide)⟩

/-! ### Scenario B evaluation lemmas -/

theorem sqrt25_eq : Real.sqrt 25 = 5 := by
  rw [show (25 : ℝ) = 5 ^ 2 by norm_num, Real.sqrt_sq (by norm_num : (0 : ℝ) ≤ 5)]

theorem dist3_amateru_starA : dist3 amateruStar starA = 5 := by
  unfold dist3 amateruStar starA
  norm_num [sqrt25_eq]

theorem dist3_amateru_starB : dist3 amateruStar starB = 5 := by
  unfold dist3 amateruStar starB
  norm_num [sqrt25_eq]

theorem nearby_scenarioB :
    nearbyLoop amateruStar scenarioB_catalog = [starA, starB] := by
  have h1 : ¬ (starA.id = amateruStar.id) := by decide
  have h2 : ¬ (starB.id = amateruStar.id) := by decide
  have hA : dist3 amateruStar starA ≤ REGION_RADIUS_LY := by
    rw [dist3_amateru_starA]
    norm_num [REGION_RADIUS_LY]
  have hB : dist3 amateruStar starB ≤ REGION_RADIUS_LY := by
    rw [dist3_amateru_starB]
    norm_num [REGION_RADIUS_LY]
  show nearbyLoop amateruStar [amateruStar, starA, starB] = [starA, starB]
  simp [nearbyLoop, h1, h2, hA, hB]

theorem sel_scenarioB :
    get_stars_near_amateru scenarioB_catalog =
      Except.ok (scenarioB_ref, scenarioB_rows) := by
  unfold get_stars_near_amateru
  rw [show lookupAmateru scenarioB_catalog = some amateruStar from rfl]
  show Except.ok ((amateruStar.id, amateruStar.name, amateruStar.x, amateruStar.y,
      amateruStar.z), row6 amateruStar :: (nearbyLoop amateruStar scenarioB_catalog).map row9) = _
  rw [nearby_scenarioB]
  simp [scenarioB_ref, scenarioB_rows, amateruStar]

theorem calc_scenarioB :
    calculate_distances scenarioB_ref scenarioB_rows =
      [((0, 1), (5 : ℝ)), ((0, 2), 5), ((1, 2), Real.sqrt 50)] := by
  have hp : pairsList scenarioB_rows.length = [(0, 1), (0, 2), (1, 2)] := by decide
  unfold calculate_distances
  rw [hp]
  simp only [List.map_cons, List.map_nil, List.cons.injEq, Prod.mk.injEq,
    and_true, true_and]
  norm_num [scenarioB_rows, List.getD_cons_zero, List.getD_cons_succ, rowX,
    rowY, rowZ, row6, row9, amateruStar, starA, starB, optField, sqrt25_eq]

/-! ### Claim theorem for the renderer's connections -/

/-- C7: a connection line between the pixel positions of a pair is drawn
iff the pair's original 3D distance is below the close threshold; its
tiered width is a function of the 3D distance alone (`drawnPairsWidths`,
which takes no pixel positions, so the drawn pairs and widths are
independent of the 2D layout); and on the Scenario B catalog exactly 3
lines are drawn, whatever the pixel layout is. -/
theorem connections_from_3d_distances (distances : List ((ℕ × ℕ) × ℝ))
    (pix : List Pos) (hkeys : (distances.map Prod.fst).Nodup) :
    (renderLines distances pix).map (fun l => (l.1, l.2.1)) =
      drawnPairsWidths distances ∧
    (∀ i j d, ((i, j), d) ∈ distances →
      (((i, j), lineWidth d, (pix.getD i (0, 0), pix.getD j (0, 0))) ∈
          renderLines distances pix ↔ d < CLOSE_DISTANCE_LY)) ∧
    get_stars_near_amateru scenarioB_catalog =
      Except.ok (scenarioB_ref, scenarioB_rows) ∧
    (renderLines (calculate_distances scenarioB_ref scenarioB_rows) pix).length = 3 := by
  refine ⟨?_, ?_, sel_scenarioB, ?_⟩
  · unfold renderLines drawnPairsWidths
    rw [List.map_map]
    rfl
  · intro i j d hmem
    constructor
    · intro hline
      unfold renderLines at hline
      obtain ⟨e, he, heq⟩ := List.mem_map.1 hline
      obtain ⟨hemem, hefilter⟩ := List.mem_filter.1 he
      have hfst : e.1 = (i, j) := congrArg Prod.fst heq
      have hed : e = ((i, j), d) :=
        List.inj_on_of_nodup_map hkeys hemem hmem (by rw [hfst])
      rw [hed] at hefilter
      exact of_decide_eq_true hefilter
    · intro hd
      unfold renderLines
      exact List.mem_map_of_mem _ (List.mem_filter.2 ⟨hmem, decide_eq_true hd⟩)
  · rw [calc_scenarioB]
    unfold renderLines
    rw [List.length_map]
    have h5 : decide ((5 : ℝ) < CLOSE_DISTANCE_LY) = true :=
      decide_eq_true (by norm_num [CLOSE_DISTANCE_LY])
    have h50 : decide (Real.sqrt 50 < CLOSE_DISTANCE_LY) = true := by
      refine decide_eq_true ?_
      show Real.sqrt 50 < CLOSE_DISTANCE_LY
      rw [show CLOSE_DISTANCE_LY = 10 from rfl,
        Real.sqrt_lt' (by norm_num : (0 : ℝ) < 10)]
      norm_num
    simp [List.filter_cons, h5, h50]

/-- Witness for C7 at the Scenario B pair distances with the empty pixel
layout. -/
theorem connections_from_3d_distances_witness :
    ((calculate_distances scenarioB_ref scenarioB_rows).map Prod.fst).Nodup ∧
    ((renderLines (calculate_distances scenarioB_ref scenarioB_rows)
        ([] : List Pos)).map (fun l => (l.1, l.2.1)) =
      drawnPairsWidths (calculate_distances scenarioB_ref scenarioB_rows) ∧
    (∀ i j d, ((i, j), d) ∈ calculate_distances scenarioB_ref scenarioB_rows →
      (((i, j), lineWidth d,
          (([] : List Pos).getD i (0, 0), ([] : List Pos).getD j (0, 0))) ∈
          renderLines (calculate_distances scenarioB_ref scenarioB_rows)
            ([] : List Pos) ↔ d < CLOSE_DISTANCE_LY)) ∧
    get_stars_near_amateru scenarioB_catalog =
      Except.ok (scenarioB_ref, scenarioB_rows) ∧
    (renderLines (calculate_distances scenarioB_ref scenarioB_rows)
        ([] : List Pos)).length = 3) := by
  have hk : ((calculate_distances scenarioB_ref scenarioB_rows).map
      Prod.fst).Nodup := by
    rw [calculate_distances_keys]
    decide
  exact ⟨hk, connections_from_3d_distances _ ([] : List Pos) hk⟩

end SolarViewer
